import Mathlib

/-!
Shallow embedding of `src/router/src/config_generator.cc` (MySQL Router bootstrap
config generator) together with theorems settling the specification claims about it.

Conventions:
* `std::map<std::string, std::string>` option maps become association lists with unique
  keys, looked up by `lookupOption`.
* `const char *` result columns that may be `NULL` become `Option String`; `get_string`
  mirrors the helper of the same name in the source.
* Machine integers are `Int`/`Nat` with explicit wrapping where the C++ code narrows
  (`static_cast<int>` of a `long` is modelled by `toCInt`).
* Fallible functions return `Except String α`, the error payload being the exact
  `std::runtime_error` message built by the source.
-/

/-- Lookup in an association-list model of `std::map<std::string, std::string>` /
of a config section's option map (keys are unique in the program's maps). -/
def lookupOption : List (String × String) → String → Option String
  | [], _ => none
  | (k', v) :: rest, k => if k' = k then some v else lookupOption rest k

/-- Line 73-78: `get_string` returns `""` for a `NULL` C string. -/
def get_string (input_str : Option String) : String := input_str.getD ""

/-! ### Model of the C number-parsing primitives used by the source -/

/-- The whitespace characters skipped by `strtol`/`strtoul` (C `isspace`). -/
def isSpaceChar (c : Char) : Bool :=
  c = ' ' || c = '\t' || c = '\n' || c = '\x0b' || c = '\x0c' || c = '\r'

def isDigitChar (c : Char) : Bool := '0' ≤ c && c ≤ '9'

/-- Value of a run of decimal digits. -/
def digitsVal (cs : List Char) : Nat :=
  cs.foldl (fun acc c => 10 * acc + (c.toNat - '0'.toNat)) 0

/-- Model of C `strtol(s, &end, 10)` on an LP64 platform (64-bit `long`): the value,
clamped to the `long` range on overflow, paired with whether `end` ended up at the
terminating NUL (`end == tmp + strlen(tmp)`), i.e. the whole string was consumed.
When no digits are converted, `end` is reset to the start of the string, so the
whole-string check succeeds only for the empty string. -/
def strtol10 (s : String) : Int × Bool :=
  let cs := s.toList
  let afterWs := cs.dropWhile isSpaceChar
  let signAndRest : Int × List Char :=
    match afterWs with
    | '-' :: rest => (-1, rest)
    | '+' :: rest => (1, rest)
    | rest => (1, rest)
  let digits := signAndRest.2.takeWhile isDigitChar
  let rest := signAndRest.2.dropWhile isDigitChar
  if digits.isEmpty then
    (0, cs.isEmpty)
  else
    let v : Int := signAndRest.1 * (digitsVal digits : Int)
    let clamped : Int :=
      if v > 2 ^ 63 - 1 then 2 ^ 63 - 1 else if v < -(2 ^ 63) then -(2 ^ 63) else v
    (clamped, rest.isEmpty)

/-- `static_cast<int>` of a 64-bit value: two's-complement truncation to 32 bits
(the conversion gcc/clang perform on a narrowing `long` → `int` cast). -/
def toCInt (v : Int) : Int := (v + 2 ^ 31) % 2 ^ 32 - 2 ^ 31

/-! ### Constants (lines 44-57) -/

def kDefaultRWPort : Int := 6446
def kDefaultROPort : Int := 6447
def kRWSocketName : String := "mysql.sock"
def kROSocketName : String := "mysqlro.sock"
def kDefaultRWXPort : Int := 64460
def kDefaultROXPort : Int := 64470
def kRWXSocketName : String := "mysqlx.sock"
def kROXSocketName : String := "mysqlxro.sock"
def kMetadataServerPasswordLength : Nat := 16

/-! ### Options record -/

/-- Modelled from the spec: `ConfigGenerator::Options::Endpoint` is declared in
`config_generator.h`, which is not among the sources; per the spec's data model an
endpoint is {port: integer (0 = unset), socket: string path (empty = unset)}. -/
structure Endpoint where
  port : Int := 0
  socket : String := ""
deriving Repr, DecidableEq

/-- Modelled from the spec: `ConfigGenerator::Options` is declared in
`config_generator.h`, which is not among the sources; fields and their unset defaults
follow the spec's `DeploymentOptions` data model. -/
structure Options where
  multi_master : Bool := false
  bind_address : String := ""
  rw_endpoint : Endpoint := {}
  ro_endpoint : Endpoint := {}
  rw_x_endpoint : Endpoint := {}
  ro_x_endpoint : Endpoint := {}
  override_logdir : String := ""
  override_rundir : String := ""
  socketsdir : String := ""
  keyring_file_path : String := ""
  keyring_master_key_file_path : String := ""
deriving Repr, DecidableEq

/-! ### ConfigGenerator::fill_options (lines 372-436) -/

/-- Lines 380-388: parse and validate the `base-port` option.  `base_port` starts at 0
(meaning "use the per-role defaults"); a supplied value goes through `strtol` and a
narrowing cast to `int`, then must be strictly positive, at most 65535, and the parse
must have consumed the whole string. -/
def parseBasePort (user_options : List (String × String)) : Except String Int :=
  match lookupOption user_options "base-port" with
  | none => .ok 0
  | some s =>
    let r := strtol10 s
    let base_port := toCInt r.1
    if base_port ≤ 0 ∨ base_port > 65535 ∨ r.2 = false then
      .error ("Invalid base-port value " ++ s)
    else
      .ok base_port

/-- Lines 397-404: validate a supplied `bind-address` via `TCPAddress::is_valid`
(external to this file, passed in as a predicate); absent means the `Options`
default (empty string). -/
def parseBindAddress (user_options : List (String × String))
    (is_valid_address : String → Bool) : Except String String :=
  match lookupOption user_options "bind-address" with
  | none => .ok ""
  | some address =>
    if is_valid_address address then .ok address
    else .error ("Invalid bind-address value " ++ address)

/-- `base_port == 0 ? dflt : base_port++` — the port value used, paired with the
updated `base_port`. -/
def takePort (base dflt : Int) : Int × Int :=
  if base = 0 then (dflt, base) else (base, base + 1)

/-- Lines 405-416: classic-protocol endpoint assignment
(`skip_classic_protocol` is the constant `false` in the source). -/
def assignClassic (multi_master use_sockets skip_tcp : Bool) (o : Options) (base : Int) :
    Options × Int :=
  let o :=
    if use_sockets then
      let o := { o with rw_endpoint := { o.rw_endpoint with socket := kRWSocketName } }
      if !multi_master then
        { o with ro_endpoint := { o.ro_endpoint with socket := kROSocketName } }
      else o
    else o
  if !skip_tcp then
    let pr := takePort base kDefaultRWPort
    let o := { o with rw_endpoint := { o.rw_endpoint with port := pr.1 } }
    if !multi_master then
      let pr2 := takePort pr.2 kDefaultROPort
      ({ o with ro_endpoint := { o.ro_endpoint with port := pr2.1 } }, pr2.2)
    else (o, pr.2)
  else (o, base)

/-- Lines 417-428: X-protocol endpoint assignment
(`skip_x_protocol` is the constant `false` in the source). -/
def assignX (multi_master use_sockets skip_tcp : Bool) (o : Options) (base : Int) :
    Options × Int :=
  let o :=
    if use_sockets then
      let o := { o with rw_x_endpoint := { o.rw_x_endpoint with socket := kRWXSocketName } }
      if !multi_master then
        { o with ro_x_endpoint := { o.ro_x_endpoint with socket := kROXSocketName } }
      else o
    else o
  if !skip_tcp then
    let pr := takePort base kDefaultRWXPort
    let o := { o with rw_x_endpoint := { o.rw_x_endpoint with port := pr.1 } }
    if !multi_master then
      let pr2 := takePort pr.2 kDefaultROXPort
      ({ o with ro_x_endpoint := { o.ro_x_endpoint with port := pr2.1 } }, pr2.2)
    else (o, pr.2)
  else (o, base)

/-- Lines 429-434: pass-through of the `logdir`/`rundir`/`socketsdir` overrides. -/
def applyDirOverrides (o : Options) (user_options : List (String × String)) : Options :=
  let o :=
    match lookupOption user_options "logdir" with
    | some v => { o with override_logdir := v }
    | none => o
  let o :=
    match lookupOption user_options "rundir" with
    | some v => { o with override_rundir := v }
    | none => o
  match lookupOption user_options "socketsdir" with
  | some v => { o with socketsdir := v }
  | none => o

/-- Lines 372-436: `ConfigGenerator::fill_options`. -/
def fill_options (multi_master : Bool) (user_options : List (String × String))
    (is_valid_address : String → Bool) : Except String Options :=
  match parseBasePort user_options with
  | .error e => .error e
  | .ok base_port =>
    let use_sockets := (lookupOption user_options "use-sockets").isSome
    let skip_tcp := (lookupOption user_options "skip-tcp").isSome
    match parseBindAddress user_options is_valid_address with
    | .error e => .error e
    | .ok bind_address =>
      let o : Options := { multi_master := multi_master, bind_address := bind_address }
      let ob := assignClassic multi_master use_sockets skip_tcp o base_port
      let ob2 := assignX multi_master use_sockets skip_tcp ob.1 ob.2
      .ok (applyDirOverrides ob2.1 user_options)

/-! ### ConfigGenerator::endpoint_option (lines 693-707) -/

/-- Lines 693-707: render the `bind_address`/`bind_port`/`socket` lines of a routing
section (`s.empty()` is written `s = ""`). -/
def endpoint_option (options : Options) (ep : Endpoint) : String :=
  let r := ""
  let r :=
    if ep.port > 0 then
      let bind_address := if ¬(options.bind_address = "") then options.bind_address else "0.0.0.0"
      r ++ ("bind_address=" ++ bind_address ++ "\n") ++ ("bind_port=" ++ toString ep.port)
    else r
  if ¬(ep.socket = "") then
    (if ¬(r = "") then r ++ "\n" else r) ++ ("socket=" ++ options.socketsdir ++ "/" ++ ep.socket)
  else r

/-! ### generate_password (lines 81-91) -/

/-- Line 84: the password alphabet string literal. -/
def kPasswordAlphabet : String :=
  "1234567890abcdefghijklmnopqrstuvwxyzABCDEFGHIJKLMNOPQRSTUVWXYZ~@#%$^&*()-_=+]\x7d[\x7b|;:.>,</?"

/-- Lines 81-91: each loop iteration appends `alphabet[dist(rd)]` where
`dist = uniform_int_distribution(0, strlen(alphabet) - 1)`; one draw of the
distribution is therefore an index in `[0, strlen(alphabet))`, modelled as a `Fin` of
the alphabet length supplied by the random source. -/
def generate_password (password_length : Nat)
    (dist : Nat → Fin kPasswordAlphabet.toList.length) : String :=
  String.mk ((List.range password_length).map fun i => kPasswordAlphabet.toList.get (dist i))

/-! ### ConfigGenerator::fetch_bootstrap_servers (lines 571-640) -/

/-- One row of the metadata topology query: cluster name, replicaset name,
topology type, classic-protocol address — each a possibly-`NULL` C string. -/
structure MetadataRow where
  cluster_name : Option String
  replicaset_name : Option String
  topology_type : Option String
  classic_address : Option String
deriving Repr, DecidableEq

/-- The four output parameters of `fetch_bootstrap_servers`, accumulated across the
row callback. -/
structure FetchState where
  metadata_cluster : String
  metadata_replicaset : String
  bootstrap_servers : String
  multi_master : Bool
deriving Repr, DecidableEq

/-- Lines 621-629: the topology-type column of one row (`row[2]`): `NULL` is skipped,
`"mm"` sets multi-master, `"pm"` clears it, anything else is fatal. -/
def applyTopology (st : FetchState) : Option String → Except String FetchState
  | some t =>
    if t = "mm" then .ok { st with multi_master := true }
    else if t = "pm" then .ok { st with multi_master := false }
    else .error ("Unknown topology type in metadata: " ++ t)
  | none => .ok st

/-- Lines 606-631: the row callback of `fetch_bootstrap_servers`. -/
def processRow (st : FetchState) (row : MetadataRow) : Except String FetchState :=
  let step1 : Except String FetchState :=
    if st.metadata_cluster = "" then
      .ok { st with metadata_cluster := get_string row.cluster_name }
    else if ¬(st.metadata_cluster = get_string row.cluster_name) then
      .error "Metadata contains more than one cluster"
    else .ok st
  match step1 with
  | .error e => .error e
  | .ok st =>
    let step2 : Except String FetchState :=
      if st.metadata_replicaset = "" then
        .ok { st with metadata_replicaset := get_string row.replicaset_name }
      else if ¬(st.metadata_replicaset = get_string row.replicaset_name) then
        .error "Metadata contains more than one replica-set"
      else .ok st
    match step2 with
    | .error e => .error e
    | .ok st =>
      let st :=
        if ¬(st.bootstrap_servers = "") then
          { st with bootstrap_servers := st.bootstrap_servers ++ "," }
        else st
      match applyTopology st row.topology_type with
      | .error e => .error e
      | .ok st =>
        .ok { st with
                bootstrap_servers := st.bootstrap_servers ++ ("mysql://" ++ get_string row.classic_address) }

/-- The query loop: rows are consumed in result order, each through `processRow`. -/
def processRows (st : FetchState) : List MetadataRow → Except String FetchState
  | [] => .ok st
  | row :: rest =>
    match processRow st row with
    | .error e => .error e
    | .ok st' => processRows st' rest

/-- Lines 571-640: `ConfigGenerator::fetch_bootstrap_servers`, modelled on the list of
rows the metadata query returns.  `multi_master_init` is the value of the caller's
`multi_master` variable before the call (`false` in `bootstrap_deployment`, line 447);
the callback only assigns it when a row carries a non-`NULL` topology type. -/
def fetch_bootstrap_servers (multi_master_init : Bool) (rows : List MetadataRow) :
    Except String FetchState :=
  let st0 : FetchState :=
    { metadata_cluster := "", metadata_replicaset := "", bootstrap_servers := "",
      multi_master := multi_master_init }
  match processRows st0 rows with
  | .error e => .error e
  | .ok st =>
    if st.metadata_cluster = "" then
      .error "No clusters defined in metadata server"
    else
      .ok st

/-! ### AutoDeleter (lines 104-146) -/

/-- The three entry kinds of the `AutoDeleter` ledger (enum `Type`, lines 140-144). -/
inductive FType
  | Directory
  | DirectoryRecursive
  | File
deriving Repr, DecidableEq

/-- Lexicographic comparison of character lists: the order `std::map<std::string, …>`
keeps its keys in (`std::string::operator<`). -/
def strLt : List Char → List Char → Bool
  | [], [] => false
  | [], _ :: _ => true
  | _ :: _, [] => false
  | a :: as, b :: bs => if a < b then true else if b < a then false else strLt as bs

def pathLt (a b : String) : Bool := strLt a.toList b.toList

/-- The `_files` member: a `std::map<std::string, Type>`, i.e. an association list kept
sorted ascending by key with unique keys. -/
abbrev Ledger := List (String × FType)

/-- `_files[k] = v`: sorted-position insert, overwriting the entry of an equal key. -/
def mapInsert : Ledger → String → FType → Ledger
  | [], k, v => [(k, v)]
  | (k', v') :: rest, k, v =>
    if pathLt k k' then (k, v) :: (k', v') :: rest
    else if pathLt k' k then (k', v') :: mapInsert rest k v
    else (k, v) :: rest

/-- `_files.erase(k)` (keys are unique, so erasing the first match suffices). -/
def eraseKey : Ledger → String → Ledger
  | [], _ => []
  | (k', v') :: rest, k => if k' = k then rest else (k', v') :: eraseKey rest k

/-- The public operations of `AutoDeleter` (lines 106-120). -/
inductive GuardOp
  | add_file (p : String)
  | add_directory (p : String) (recursive : Bool)
  | remove (p : String)
  | clear
deriving Repr, DecidableEq

def applyGuardOp (m : Ledger) : GuardOp → Ledger
  | .add_file f => mapInsert m f .File
  | .add_directory d recursive => mapInsert m d (if recursive then .DirectoryRecursive else .Directory)
  | .remove p => eraseKey m p
  | .clear => []

/-- The ledger an `AutoDeleter` holds after a sequence of operations (it starts empty). -/
def runGuard (ops : List GuardOp) : Ledger := ops.foldl applyGuardOp []

/-- Lines 122-138: the destructor walks the map from `rbegin()` to `rend()`, i.e. visits
the entries in reverse key order, deleting each according to its kind. -/
def deletionOrder (m : Ledger) : Ledger := m.reverse

/-- The claim's reading of the teardown, stated from the spec's words for comparison
with the map-ordered `deletionOrder` the code produces: the paths still tracked are
removed in reverse insertion order. -/
def reverseInsertionOrder (ops : List GuardOp) : Ledger :=
  (ops.filterMap fun op =>
    match op with
    | .add_file f => some (f, FType.File)
    | .add_directory d recursive =>
      some (d, if recursive then FType.DirectoryRecursive else FType.Directory)
    | _ => none).reverse

/-- `p` names a directory that (transitively) contains `q`: as strings, `p` is a proper
prefix of `q`. -/
def isPathAncestor (p q : String) : Prop := (∃ t, q.toList = p.toList ++ t) ∧ ¬(p = q)

/-! ### files_equal / backup_config_file_if_different (lines 1019-1053) -/

/-- A file on disk: its byte content and whether its permissions have been hardened to
owner-only (`mysql_harness::make_file_private`). -/
structure FileEntry where
  content : String
  owner_only : Bool := false
deriving Repr, DecidableEq

/-- The filesystem, as far as these two functions observe it: an association list from
path to file entry (a path is absent iff no file exists there). -/
abbrev FileSystem := List (String × FileEntry)

def fsGet : FileSystem → String → Option FileEntry
  | [], _ => none
  | (p', e) :: rest, p => if p' = p then some e else fsGet rest p

/-- Write-or-create a path. -/
def fsSet : FileSystem → String → FileEntry → FileSystem
  | [], p, e => [(p, e)]
  | (p', e') :: rest, p, e =>
    if p' = p then (p, e) :: rest else (p', e') :: fsSet rest p e

/-- Modelled from the spec: `copy_file` is a low-level filesystem primitive consumed as
an OS call — it duplicates the source's content at the destination (permissions are
hardened separately, by `make_file_private`). -/
def copy_file (fs : FileSystem) (src dst : String) : FileSystem :=
  match fsGet fs src with
  | some e => fsSet fs dst { content := e.content, owner_only := false }
  | none => fs

/-- Modelled from the spec: `mysql_harness::make_file_private` is a low-level
permission-hardening primitive — it restricts an existing file to owner-only access. -/
def make_file_private (fs : FileSystem) (p : String) : FileSystem :=
  match fsGet fs p with
  | some e => fsSet fs p { e with owner_only := true }
  | none => fs

/-- Lines 1019-1040: `files_equal`.  Each argument is the content of the file if it
exists.  `tellg()` on a stream whose open failed yields `-1`, so a missing file has
"size" `-1`; sizes are compared first, full contents only on equal sizes. -/
def files_equal (f1 f2 : Option String) : Bool :=
  let fsize : Int := match f1 with | none => -1 | some c => (c.length : Int)
  let fsize2 : Int := match f2 with | none => -1 | some c => (c.length : Int)
  if ¬(fsize = fsize2) then false
  else decide (f1.getD "" = f2.getD "")

/-- Lines 1042-1053: `ConfigGenerator::backup_config_file_if_different`, as a transformer
of the modelled filesystem paired with the returned `bool`. -/
def backup_config_file_if_different (fs : FileSystem) (config_path new_file_path : String) :
    FileSystem × Bool :=
  match fsGet fs config_path with
  | none => (fs, false)
  | some _ =>
    if files_equal ((fsGet fs config_path).map FileEntry.content)
        ((fsGet fs new_file_path).map FileEntry.content) then
      (fs, false)
    else
      let fs := copy_file fs config_path (config_path ++ ".bak")
      (make_file_private fs (config_path ++ ".bak"), true)

/-! ### ConfigGenerator::get_router_id_from_config_file (lines 903-945) -/

/-- Model of C `strtoul(s, &end, 10)`: the converted value (wrapped into the unsigned
64-bit range, negative inputs wrapping as the C standard prescribes), whether `end` was
left at the start of the string (no digits converted), and whether the conversion
overflowed (the condition under which `strtoul` sets `errno` to `ERANGE`; the source
reads `errno` without clearing it first, its intent being this overflow check). -/
structure StrtoulOut where
  value : Nat
  endAtStart : Bool
  erange : Bool
deriving Repr, DecidableEq

def strtoul10 (s : String) : StrtoulOut :=
  let cs := s.toList
  let afterWs := cs.dropWhile isSpaceChar
  let negAndRest : Bool × List Char :=
    match afterWs with
    | '-' :: rest => (true, rest)
    | '+' :: rest => (false, rest)
    | rest => (false, rest)
  let digits := negAndRest.2.takeWhile isDigitChar
  if digits.isEmpty then
    { value := 0, endAtStart := true, erange := false }
  else
    let v := digitsVal digits
    let er := v > 2 ^ 64 - 1
    let v := if er then 2 ^ 64 - 1 else v
    { value := if negAndRest.1 then (2 ^ 64 - v % 2 ^ 64) % 2 ^ 64 else v,
      endAtStart := false, erange := er }

/-- Line 914 error message. -/
def kMultipleSectionsError : String :=
  "Bootstrapping of Router with multiple metadata_cache sections not supported"

/-- Lines 938-940 error message. -/
def alreadyConfiguredError (existing_cluster : String) : String :=
  "The given Router instance is already configured for a cluster named '" ++
    existing_cluster ++
    "'.\nIf you'd like to replace it, please use the --force configuration option."

/-- One `[metadata_cache]` section of the parsed configuration file: its option map
(`section->has` / `section->get` of `mysql_harness::ConfigSection`). -/
abbrev ConfigSection := List (String × String)

def sectionHas (s : ConfigSection) (k : String) : Bool := (lookupOption s k).isSome

def sectionGet (s : ConfigSection) (k : String) : String := (lookupOption s k).getD ""

/-- Outcome of the section loop (lines 916-935): either an early `return` with a router
id, or falling through with the final value of `existing_cluster`. -/
inductive ScanOut
  | found (rid : Nat)
  | fellThrough (existing_cluster : String)
deriving Repr, DecidableEq

/-- Lines 916-935: scan the `metadata_cache` sections, updating `existing_cluster`
whenever a section carries `metadata_cluster`, and returning the parsed `router_id` on
a cluster-name match (0 with a warning when the matching section has no `router_id`). -/
def scanSections (config_file_path cluster_name : String) :
    List ConfigSection → String → Except String ScanOut
  | [], existing_cluster => .ok (.fellThrough existing_cluster)
  | s :: rest, existing_cluster =>
    if sectionHas s "metadata_cluster" then
      let existing_cluster := sectionGet s "metadata_cluster"
      if existing_cluster = cluster_name then
        if sectionHas s "router_id" then
          let tmp := sectionGet s "router_id"
          let r := strtoul10 tmp
          if r.endAtStart ∨ r.erange then
            .error ("Invalid router_id '" ++ tmp ++ "' for cluster '" ++ cluster_name ++
              "' in " ++ config_file_path)
          else
            .ok (.found (r.value % 2 ^ 32))
        else
          .ok (.found 0)
      else
        scanSections config_file_path cluster_name rest existing_cluster
    else
      scanSections config_file_path cluster_name rest existing_cluster

/-- Lines 903-945: `ConfigGenerator::get_router_id_from_config_file`.  The parsing of
the file itself (`mysql_harness::Config`) is external; the function is modelled on the
list of sections `config.get("metadata_cache")` returns (empty when the file has no
such section) together with whether the path exists. -/
def get_router_id_from_config_file (config_file_path : String) (path_exists : Bool)
    (metadata_cache_sections : List ConfigSection)
    (cluster_name : String) (forcing_overwrite : Bool) : Except String Nat :=
  let scanned : Except String ScanOut :=
    if path_exists then
      if metadata_cache_sections.length > 1 then .error kMultipleSectionsError
      else scanSections config_file_path cluster_name metadata_cache_sections ""
    else .ok (.fellThrough "")
  match scanned with
  | .error e => .error e
  | .ok (.found rid) => .ok rid
  | .ok (.fellThrough existing_cluster) =>
    if ¬forcing_overwrite then .error (alreadyConfiguredError existing_cluster)
    else .ok 0

/-! ### Order lemmas for the AutoDeleter ledger -/

theorem strLt_asymm : ∀ as bs : List Char, strLt as bs = true → strLt bs as = false := by
  intro as
  induction as with
  | nil =>
    intro bs h
    cases bs with
    | nil => simp [strLt] at h
    | cons b bs => simp [strLt]
  | cons a as ih =>
    intro bs h
    cases bs with
    | nil => simp [strLt] at h
    | cons b bs =>
      simp only [strLt] at h ⊢
      by_cases hab : a < b
      · have hba : ¬ b < a := lt_asymm hab
        simp [hab, hba]
      · by_cases hba : b < a
        · simp [hab, hba] at h
        · simp only [hab, hba, if_false] at h ⊢
          exact ih bs h

theorem strLt_conn : ∀ as bs : List Char, strLt as bs = false → strLt bs as = false → as = bs := by
  intro as
  induction as with
  | nil =>
    intro bs h1 _
    cases bs with
    | nil => rfl
    | cons b bs => simp [strLt] at h1
  | cons a as ih =>
    intro bs h1 h2
    cases bs with
    | nil => simp [strLt] at h2
    | cons b bs =>
      simp only [strLt] at h1 h2
      by_cases hab : a < b
      · simp [hab] at h1
      · by_cases hba : b < a
        · simp [hab, hba] at h2
        · have : a = b := le_antisymm (not_lt.mp hba) (not_lt.mp hab)
          subst this
          simp only [hab, if_false] at h1 h2
          rw [ih bs h1 h2]

theorem strLt_trans :
    ∀ as bs cs : List Char, strLt as bs = true → strLt bs cs = true → strLt as cs = true := by
  intro as
  induction as with
  | nil =>
    intro bs cs h1 h2
    cases bs with
    | nil => simp [strLt] at h1
    | cons b bs =>
      cases cs with
      | nil => simp [strLt] at h2
      | cons c cs => simp [strLt]
  | cons a as ih =>
    intro bs cs h1 h2
    cases bs with
    | nil => simp [strLt] at h1
    | cons b bs =>
      cases cs with
      | nil => simp [strLt] at h2
      | cons c cs =>
        simp only [strLt] at h1 h2 ⊢
        by_cases hab : a < b
        · by_cases hbc : b < c
          · simp [lt_trans hab hbc]
          · by_cases hcb : c < b
            · simp [hab, hbc, hcb] at h2
            · have : b = c := le_antisymm (not_lt.mp hcb) (not_lt.mp hbc)
              subst this
              simp [hab]
        · by_cases hba : b < a
          · simp [hab, hba] at h1
          · have : a = b := le_antisymm (not_lt.mp hba) (not_lt.mp hab)
            subst this
            simp only [hab, if_false] at h1 ⊢
            by_cases hbc : a < c
            · simp [hbc]
            · by_cases hcb : c < a
              · simp [hbc, hcb] at h2
              · simp only [hbc, hcb, if_false] at h2 ⊢
                exact ih bs cs h1 h2

theorem strLt_self_append : ∀ (as t : List Char), ¬(t = []) → strLt as (as ++ t) = true := by
  intro as
  induction as with
  | nil =>
    intro t ht
    cases t with
    | nil => exact absurd rfl ht
    | cons c cs => simp [strLt]
  | cons a as ih =>
    intro t ht
    simp only [List.cons_append, strLt, lt_irrefl, if_false]
    exact ih t ht

theorem pathLt_trans {a b c : String} (h1 : pathLt a b = true) (h2 : pathLt b c = true) :
    pathLt a c = true :=
  strLt_trans _ _ _ h1 h2

theorem pathLt_of_isPathAncestor {p q : String} (h : isPathAncestor p q) : pathLt p q = true := by
  obtain ⟨⟨t, hq⟩, hne⟩ := h
  have ht : ¬(t = []) := by
    intro h0
    subst h0
    exact hne (String.ext (by simpa using hq.symm))
  rw [pathLt, hq]
  exact strLt_self_append _ _ ht

/-- The sortedness invariant of the `std::map` model: keys strictly ascending. -/
def LedgerSorted (m : Ledger) : Prop := m.Pairwise fun x y => pathLt x.1 y.1 = true

theorem mem_mapInsert :
    ∀ (m : Ledger) (k : String) (v : FType) (x : String × FType),
      x ∈ mapInsert m k v → x = (k, v) ∨ x ∈ m := by
  intro m k v
  induction m with
  | nil =>
    intro x hx
    simp [mapInsert] at hx
    exact Or.inl hx
  | cons hd rest ih =>
    obtain ⟨k', v'⟩ := hd
    intro x hx
    unfold mapInsert at hx
    by_cases h1 : pathLt k k' = true
    · rw [if_pos h1] at hx
      rcases List.mem_cons.mp hx with hx | hx
      · exact Or.inl hx
      · exact Or.inr hx
    · rw [if_neg h1] at hx
      by_cases h2 : pathLt k' k = true
      · rw [if_pos h2] at hx
        rcases List.mem_cons.mp hx with hx | hx
        · rw [hx]
          exact Or.inr (List.mem_cons_self _ _)
        · rcases ih x hx with h | h
          · exact Or.inl h
          · exact Or.inr (List.mem_cons_of_mem _ h)
      · rw [if_neg h2] at hx
        rcases List.mem_cons.mp hx with hx | hx
        · exact Or.inl hx
        · exact Or.inr (List.mem_cons_of_mem _ hx)

theorem sorted_mapInsert :
    ∀ (m : Ledger) (k : String) (v : FType), LedgerSorted m → LedgerSorted (mapInsert m k v) := by
  intro m k v
  induction m with
  | nil =>
    intro _
    simp [mapInsert, LedgerSorted]
  | cons hd rest ih =>
    obtain ⟨k', v'⟩ := hd
    intro hs
    rw [LedgerSorted, List.pairwise_cons] at hs
    obtain ⟨hhead, htail⟩ := hs
    unfold mapInsert
    by_cases h1 : pathLt k k' = true
    · rw [if_pos h1]
      rw [LedgerSorted, List.pairwise_cons]
      refine ⟨?_, List.Pairwise.cons hhead htail⟩
      intro y hy
      rcases List.mem_cons.mp hy with hy | hy
      · rw [hy]; exact h1
      · exact pathLt_trans h1 (hhead y hy)
    · rw [if_neg h1]
      by_cases h2 : pathLt k' k = true
      · rw [if_pos h2]
        rw [LedgerSorted, List.pairwise_cons]
        refine ⟨?_, ih htail⟩
        intro y hy
        rcases mem_mapInsert rest k v y hy with hy | hy
        · rw [hy]; exact h2
        · exact hhead y hy
      · rw [if_neg h2]
        have hk : k = k' :=
          String.ext (by
            have := strLt_conn k.toList k'.toList
              (by simpa [pathLt] using h1) (by simpa [pathLt] using h2)
            simpa using this)
        rw [LedgerSorted, List.pairwise_cons]
        refine ⟨?_, htail⟩
        intro y hy
        rw [hk]
        exact hhead y hy

theorem mem_eraseKey :
    ∀ (m : Ledger) (k : String) (x : String × FType), x ∈ eraseKey m k → x ∈ m := by
  intro m k
  induction m with
  | nil => intro x hx; simp [eraseKey] at hx
  | cons hd rest ih =>
    obtain ⟨k', v'⟩ := hd
    intro x hx
    unfold eraseKey at hx
    by_cases h : k' = k
    · rw [if_pos h] at hx
      exact List.mem_cons_of_mem _ hx
    · rw [if_neg h] at hx
      rcases List.mem_cons.mp hx with hx | hx
      · rw [hx]; exact List.mem_cons_self _ _
      · exact List.mem_cons_of_mem _ (ih x hx)

theorem sorted_eraseKey :
    ∀ (m : Ledger) (k : String), LedgerSorted m → LedgerSorted (eraseKey m k) := by
  intro m k
  induction m with
  | nil => intro _; simp [eraseKey, LedgerSorted]
  | cons hd rest ih =>
    obtain ⟨k', v'⟩ := hd
    intro hs
    rw [LedgerSorted, List.pairwise_cons] at hs
    obtain ⟨hhead, htail⟩ := hs
    unfold eraseKey
    by_cases h : k' = k
    · rw [if_pos h]; exact htail
    · rw [if_neg h]
      rw [LedgerSorted, List.pairwise_cons]
      exact ⟨fun y hy => hhead y (mem_eraseKey rest k y hy), ih htail⟩

theorem sorted_applyGuardOp :
    ∀ (m : Ledger) (op : GuardOp), LedgerSorted m → LedgerSorted (applyGuardOp m op) := by
  intro m op hs
  cases op with
  | add_file f => exact sorted_mapInsert m f _ hs
  | add_directory d r => exact sorted_mapInsert m d _ hs
  | remove p => exact sorted_eraseKey m p hs
  | clear => simp [applyGuardOp, LedgerSorted]

theorem sorted_foldl :
    ∀ (ops : List GuardOp) (m : Ledger),
      LedgerSorted m → LedgerSorted (ops.foldl applyGuardOp m) := by
  intro ops
  induction ops with
  | nil => intro m hm; exact hm
  | cons op rest ih =>
    intro m hm
    exact ih (applyGuardOp m op) (sorted_applyGuardOp m op hm)

theorem sorted_runGuard (ops : List GuardOp) : LedgerSorted (runGuard ops) :=
  sorted_foldl ops [] (by simp [LedgerSorted])

/-- C1 (amended): on teardown, the `AutoDeleter` removes exactly the paths still in its
ledger, and never removes a path before a path it is an ancestor (proper path prefix) of
— files are deleted before the directories containing them.  The order is the reverse
*key* order of the `std::map` ledger (reverse lexicographic path order), not reverse
insertion order. -/
theorem autoDeleter_unwind_children_before_parents :
    ∀ ops : List GuardOp,
      (∀ e, e ∈ deletionOrder (runGuard ops) ↔ e ∈ runGuard ops) ∧
        (deletionOrder (runGuard ops)).Pairwise fun x y => ¬ isPathAncestor x.1 y.1 := by
  intro ops
  constructor
  · intro e
    simp [deletionOrder]
  · have hs := sorted_runGuard ops
    rw [deletionOrder, List.pairwise_reverse]
    refine List.Pairwise.imp ?_ hs
    intro a b hab hanc
    have := pathLt_of_isPathAncestor hanc
    have h2 := strLt_asymm _ _ hab
    rw [pathLt] at this
    rw [this] at h2
    cases h2

/-- C1 counterexample: tracking file "b" then file "a" makes the destructor delete "b"
first (reverse key order of the map), while reverse insertion order would delete "a"
first — the claim's "reverse order of tracking (reverse insertion order)" does not hold. -/
theorem autoDeleter_deletion_not_reverse_insertion :
    deletionOrder (runGuard [GuardOp.add_file "b", GuardOp.add_file "a"]) =
        [("b", FType.File), ("a", FType.File)] ∧
      reverseInsertionOrder [GuardOp.add_file "b", GuardOp.add_file "a"] =
        [("a", FType.File), ("b", FType.File)] ∧
      ¬ deletionOrder (runGuard [GuardOp.add_file "b", GuardOp.add_file "a"]) =
          reverseInsertionOrder [GuardOp.add_file "b", GuardOp.add_file "a"] := by
  refine ⟨by decide, by decide, by decide⟩

/-! ### fill_options lemmas -/

theorem assignClassic_ro_x (mm us st : Bool) (o : Options) (b : Int) :
    ((assignClassic mm us st o b).1).ro_x_endpoint = o.ro_x_endpoint := by
  cases mm <;> cases us <;> cases st <;> simp [assignClassic, takePort]

theorem assignClassic_mm_ro (us st : Bool) (o : Options) (b : Int) :
    ((assignClassic true us st o b).1).ro_endpoint = o.ro_endpoint := by
  cases us <;> cases st <;> simp [assignClassic, takePort]

theorem assignX_ro (mm us st : Bool) (o : Options) (b : Int) :
    ((assignX mm us st o b).1).ro_endpoint = o.ro_endpoint := by
  cases mm <;> cases us <;> cases st <;> simp [assignX, takePort]

theorem assignX_mm_ro_x (us st : Bool) (o : Options) (b : Int) :
    ((assignX true us st o b).1).ro_x_endpoint = o.ro_x_endpoint := by
  cases us <;> cases st <;> simp [assignX, takePort]

theorem applyDirOverrides_ro (o : Options) (uo : List (String × String)) :
    (applyDirOverrides o uo).ro_endpoint = o.ro_endpoint := by
  unfold applyDirOverrides
  cases lookupOption uo "logdir" <;> cases lookupOption uo "rundir" <;>
    cases lookupOption uo "socketsdir" <;> rfl

theorem applyDirOverrides_ro_x (o : Options) (uo : List (String × String)) :
    (applyDirOverrides o uo).ro_x_endpoint = o.ro_x_endpoint := by
  unfold applyDirOverrides
  cases lookupOption uo "logdir" <;> cases lookupOption uo "rundir" <;>
    cases lookupOption uo "socketsdir" <;> rfl

/-- C2: for every option map (and any bind-address validity predicate), when
`fill_options` is called with `multi_master = true` and succeeds, the read-only
endpoints are unpopulated: both `ro_endpoint` and `ro_x_endpoint` keep port 0 and an
empty socket, regardless of base-port, use-sockets or skip-tcp flags. -/
theorem fill_options_multi_master_no_read_only :
    ∀ (user_options : List (String × String)) (is_valid_address : String → Bool) (o : Options),
      fill_options true user_options is_valid_address = .ok o →
        o.ro_endpoint.port = 0 ∧ o.ro_endpoint.socket = "" ∧
          o.ro_x_endpoint.port = 0 ∧ o.ro_x_endpoint.socket = "" := by
  intro uo va o h
  unfold fill_options at h
  split at h
  · exact absurd h (by simp)
  · split at h
    · exact absurd h (by simp)
    · rw [Except.ok.injEq] at h
      subst h
      refine ⟨?_, ?_, ?_, ?_⟩
      · rw [applyDirOverrides_ro, assignX_ro, assignClassic_mm_ro]
      · rw [applyDirOverrides_ro, assignX_ro, assignClassic_mm_ro]
      · rw [applyDirOverrides_ro_x, assignX_mm_ro_x, assignClassic_ro_x]
      · rw [applyDirOverrides_ro_x, assignX_mm_ro_x, assignClassic_ro_x]

/-- C2 witness: the empty option map with `multi_master = true`. -/
theorem fill_options_multi_master_no_read_only_witness :
    ({ multi_master := true, rw_endpoint := { port := 6446 },
        rw_x_endpoint := { port := 64460 } } : Options).ro_endpoint.port = 0 ∧
      ({ multi_master := true, rw_endpoint := { port := 6446 },
          rw_x_endpoint := { port := 64460 } } : Options).ro_endpoint.socket = "" ∧
      ({ multi_master := true, rw_endpoint := { port := 6446 },
          rw_x_endpoint := { port := 64460 } } : Options).ro_x_endpoint.port = 0 ∧
      ({ multi_master := true, rw_endpoint := { port := 6446 },
          rw_x_endpoint := { port := 64460 } } : Options).ro_x_endpoint.socket = "" :=
  fill_options_multi_master_no_read_only [] (fun _ => true) _ rfl

/-- C3: with base-port 7000, single-primary topology and TCP mode, the four endpoints
get the sequential ports 7000-7003 in the order RW-classic, RO-classic, RW-X, RO-X;
with multi-primary the skipped RO roles consume no port number (RW-X gets 7001); with
skip-tcp no role consumes a port at all. -/
theorem fill_options_base_port_sequential :
    (fill_options false [("base-port", "7000")] (fun _ => true)).map
        (fun o => (o.rw_endpoint.port, o.ro_endpoint.port, o.rw_x_endpoint.port,
          o.ro_x_endpoint.port)) =
      .ok (7000, 7001, 7002, 7003) ∧
    (fill_options true [("base-port", "7000")] (fun _ => true)).map
        (fun o => (o.rw_endpoint.port, o.ro_endpoint.port, o.rw_x_endpoint.port,
          o.ro_x_endpoint.port)) =
      .ok (7000, 0, 7001, 0) ∧
    (fill_options false [("base-port", "7000"), ("skip-tcp", ""), ("use-sockets", "")]
          (fun _ => true)).map
        (fun o => (o.rw_endpoint.port, o.ro_endpoint.port, o.rw_x_endpoint.port,
          o.ro_x_endpoint.port)) =
      .ok (0, 0, 0, 0) := by
  refine ⟨rfl, rfl, rfl⟩

/-- C8: the base-port validation misses values that overflow a 32-bit `int`:
`strtol` parses `"4294974296"` into the 64-bit `long` 4294974296, the narrowing
`static_cast<int>` wraps it to 7000, and the range check then accepts it — although
4294974296 > 65535, no "Invalid base-port value" error is raised and the endpoints are
assigned ports 7000-7003. -/
theorem base_port_wraparound_accepted :
    (fill_options false [("base-port", "4294974296")] (fun _ => true)).map
        (fun o => (o.rw_endpoint.port, o.ro_endpoint.port, o.rw_x_endpoint.port,
          o.ro_x_endpoint.port)) =
      .ok (7000, 7001, 7002, 7003) ∧
    ¬ ((4294974296 : Int) ≤ 65535) := by
  refine ⟨rfl, by norm_num⟩


/-! ### fetch_bootstrap_servers lemmas -/

theorem applyTopology_ok_cluster :
    ∀ (st : FetchState) (t : Option String) (st' : FetchState),
      applyTopology st t = .ok st' →
        st'.metadata_cluster = st.metadata_cluster ∧
          st'.metadata_replicaset = st.metadata_replicaset ∧
          st'.bootstrap_servers = st.bootstrap_servers := by
  intro st t st' h
  cases t with
  | none =>
    rw [applyTopology, Except.ok.injEq] at h
    subst h
    exact ⟨rfl, rfl, rfl⟩
  | some t =>
    simp only [applyTopology] at h
    by_cases h1 : t = "mm"
    · rw [if_pos h1, Except.ok.injEq] at h
      subst h
      exact ⟨rfl, rfl, rfl⟩
    · rw [if_neg h1] at h
      by_cases h2 : t = "pm"
      · rw [if_pos h2, Except.ok.injEq] at h
        subst h
        exact ⟨rfl, rfl, rfl⟩
      · rw [if_neg h2] at h
        exact absurd h (by simp)

/-- C4 (amended): in the row reduction of `fetch_bootstrap_servers`, a row seeds the
cluster name — and, independently, the replicaset name — whenever the respective
accumulated name is still empty, so the first row with a non-empty name seeds it while
a first row whose name is empty or NULL lets a later row re-seed without error; a row
whose cluster name differs from a *non-empty* accumulated cluster name raises the hard
"Metadata contains more than one cluster" error, and a row that passes the cluster
check but whose replicaset name differs from a *non-empty* accumulated replicaset name
raises the hard "Metadata contains more than one replica-set" error; and a run yielding
no non-empty cluster name — in particular an empty result set — raises the fatal
"No clusters defined in metadata server" error. -/
theorem fetch_cluster_reduction :
    (∀ st row, ¬(st.metadata_cluster = "") →
        ¬(st.metadata_cluster = get_string row.cluster_name) →
        processRow st row = .error "Metadata contains more than one cluster") ∧
      (∀ st row st', st.metadata_cluster = "" → processRow st row = .ok st' →
        st'.metadata_cluster = get_string row.cluster_name) ∧
      (∀ st row,
        (st.metadata_cluster = "" ∨ st.metadata_cluster = get_string row.cluster_name) →
        ¬(st.metadata_replicaset = "") →
        ¬(st.metadata_replicaset = get_string row.replicaset_name) →
        processRow st row = .error "Metadata contains more than one replica-set") ∧
      (∀ st row st', st.metadata_replicaset = "" → processRow st row = .ok st' →
        st'.metadata_replicaset = get_string row.replicaset_name) ∧
      (∀ mm, fetch_bootstrap_servers mm [] = .error "No clusters defined in metadata server") ∧
      (∀ mm rows st, fetch_bootstrap_servers mm rows = .ok st →
        ¬(st.metadata_cluster = "")) := by
  refine ⟨?_, ?_, ?_, ?_, ?_, ?_⟩
  · intro st row h1 h2
    unfold processRow
    rw [if_neg h1, if_pos h2]
  · intro st row st' h1 h2
    unfold processRow at h2
    rw [if_pos h1] at h2
    dsimp only at h2
    by_cases hr : st.metadata_replicaset = ""
    · rw [if_pos hr] at h2
      dsimp only at h2
      split at h2
      · exact absurd h2 (by simp)
      · rename_i st3 heq3
        rw [Except.ok.injEq] at h2
        subst h2
        have h3 := (applyTopology_ok_cluster _ _ _ heq3).1
        dsimp only
        rw [h3]
        split <;> rfl
    · rw [if_neg hr] at h2
      by_cases hm : st.metadata_replicaset = get_string row.replicaset_name
      · rw [if_neg (not_not_intro hm)] at h2
        dsimp only at h2
        split at h2
        · exact absurd h2 (by simp)
        · rename_i st3 heq3
          rw [Except.ok.injEq] at h2
          subst h2
          have h3 := (applyTopology_ok_cluster _ _ _ heq3).1
          dsimp only
          rw [h3]
          split <;> rfl
      · rw [if_pos hm] at h2
        exact absurd h2 (by simp)
  · intro st row hc h1 h2
    unfold processRow
    by_cases hc0 : st.metadata_cluster = ""
    · rw [if_pos hc0]
      dsimp only
      rw [if_neg h1, if_pos h2]
    · have hcm : st.metadata_cluster = get_string row.cluster_name := by
        rcases hc with hc | hc
        · exact absurd hc hc0
        · exact hc
      rw [if_neg hc0, if_neg (not_not_intro hcm)]
      dsimp only
      rw [if_neg h1, if_pos h2]
  · intro st row st' h1 h2
    unfold processRow at h2
    by_cases hc0 : st.metadata_cluster = ""
    · rw [if_pos hc0] at h2
      dsimp only at h2
      rw [if_pos h1] at h2
      dsimp only at h2
      split at h2
      · exact absurd h2 (by simp)
      · rename_i st3 heq3
        rw [Except.ok.injEq] at h2
        subst h2
        have h3 := (applyTopology_ok_cluster _ _ _ heq3).2.1
        dsimp only
        rw [h3]
        split <;> rfl
    · rw [if_neg hc0] at h2
      by_cases hcm : st.metadata_cluster = get_string row.cluster_name
      · rw [if_neg (not_not_intro hcm)] at h2
        dsimp only at h2
        rw [if_pos h1] at h2
        dsimp only at h2
        split at h2
        · exact absurd h2 (by simp)
        · rename_i st3 heq3
          rw [Except.ok.injEq] at h2
          subst h2
          have h3 := (applyTopology_ok_cluster _ _ _ heq3).2.1
          dsimp only
          rw [h3]
          split <;> rfl
      · rw [if_pos hcm] at h2
        exact absurd h2 (by simp)
  · intro mm
    rfl
  · intro mm rows st h
    unfold fetch_bootstrap_servers at h
    dsimp only at h
    split at h
    · exact absurd h (by simp)
    · rename_i st1 heq1
      split at h
      · exact absurd h (by simp)
      · rename_i hne
        rw [Except.ok.injEq] at h
        subst h
        exact hne

/-- C4 witness: a seeded state meeting a row with a different cluster name, a seeded
state meeting a matching-cluster row with a different replicaset name, and the empty
result set. -/
theorem fetch_cluster_reduction_witness :
    processRow
        { metadata_cluster := "clusterA", metadata_replicaset := "rs",
          bootstrap_servers := "mysql://h1", multi_master := false }
        { cluster_name := some "clusterB", replicaset_name := some "rs",
          topology_type := none, classic_address := none } =
      .error "Metadata contains more than one cluster" ∧
    processRow
        { metadata_cluster := "clusterA", metadata_replicaset := "rs1",
          bootstrap_servers := "mysql://h1", multi_master := false }
        { cluster_name := some "clusterA", replicaset_name := some "rs2",
          topology_type := none, classic_address := none } =
      .error "Metadata contains more than one replica-set" ∧
    fetch_bootstrap_servers false [] = .error "No clusters defined in metadata server" :=
  ⟨fetch_cluster_reduction.1 _ _ (by decide) (by decide),
    fetch_cluster_reduction.2.2.1 _ _ (Or.inr (by decide)) (by decide) (by decide),
    fetch_cluster_reduction.2.2.2.2.1 false⟩

/-- C4 counterexample: when the first row's cluster name is empty, the second row's
differing (non-empty) cluster name does not raise the "more than one cluster" error
the claim demands — it silently re-seeds the accumulator and the run succeeds. -/
theorem fetch_empty_first_cluster_reseeds :
    fetch_bootstrap_servers false
        [{ cluster_name := some "", replicaset_name := some "rs", topology_type := none,
           classic_address := some "h1:3306" },
         { cluster_name := some "clusterA", replicaset_name := some "rs",
           topology_type := none, classic_address := some "h2:3306" }] =
      .ok { metadata_cluster := "clusterA", metadata_replicaset := "rs",
            bootstrap_servers := "mysql://h1:3306,mysql://h2:3306", multi_master := false } ∧
    ¬ (get_string (some "clusterA") = get_string (some "")) := by
  exact ⟨rfl, by decide⟩

/-- C5 counterexample: on two rows of the same replicaset whose topology types are
`"mm"` then `"pm"`, the code neither errors nor keeps the first-read value — the
topology column is re-read on every row and the last row silently wins
(`multi_master = false`). -/
theorem topology_type_last_row_wins :
    fetch_bootstrap_servers false
        [{ cluster_name := some "c", replicaset_name := some "r", topology_type := some "mm",
           classic_address := some "h1" },
         { cluster_name := some "c", replicaset_name := some "r", topology_type := some "pm",
           classic_address := some "h2" }] =
      .ok { metadata_cluster := "c", metadata_replicaset := "r",
            bootstrap_servers := "mysql://h1,mysql://h2", multi_master := false } := rfl

/-- C5 (amended): per row, the topology-type column maps `"mm"` to multi-primary and
`"pm"` to single-primary, any other non-NULL value is the fatal "unknown topology type"
error, and a NULL value leaves the mode unchanged; the column is read on *every* row and
the last non-NULL value wins — cross-row consistency is not checked (see the two-row run
in the final conjunct). -/
theorem topology_type_mapping :
    (∀ st, applyTopology st (some "mm") = .ok { st with multi_master := true }) ∧
      (∀ st, applyTopology st (some "pm") = .ok { st with multi_master := false }) ∧
      (∀ st t, ¬(t = "mm") → ¬(t = "pm") →
        applyTopology st (some t) = .error ("Unknown topology type in metadata: " ++ t)) ∧
      (∀ st, applyTopology st none = .ok st) ∧
      fetch_bootstrap_servers false
          [{ cluster_name := some "c", replicaset_name := some "r",
             topology_type := some "mm", classic_address := some "a" },
           { cluster_name := some "c", replicaset_name := some "r",
             topology_type := some "pm", classic_address := some "b" }] =
        .ok { metadata_cluster := "c", metadata_replicaset := "r",
              bootstrap_servers := "mysql://a,mysql://b", multi_master := false } := by
  refine ⟨fun st => rfl, fun st => rfl, ?_, fun st => rfl, rfl⟩
  intro st t h1 h2
  simp only [applyTopology]
  rw [if_neg h1, if_neg h2]

/-- C5 witness: the unknown-topology error at a concrete value. -/
theorem topology_type_mapping_witness :
    applyTopology
        { metadata_cluster := "c", metadata_replicaset := "r", bootstrap_servers := "",
          multi_master := false } (some "xx") =
      .error ("Unknown topology type in metadata: " ++ "xx") :=
  topology_type_mapping.2.2.1 _ "xx" (by decide) (by decide)

/-! ### files_equal / backup lemmas -/

theorem files_equal_some (a b : String) : files_equal (some a) (some b) = true ↔ a = b := by
  unfold files_equal
  dsimp only [Option.getD]
  by_cases h : ((a.length : Int)) = ((b.length : Int))
  · rw [if_neg (not_not_intro h)]
    exact decide_eq_true_iff
  · rw [if_pos h]
    simp only [Bool.false_eq_true, false_iff]
    intro hab
    exact h (by rw [hab])

theorem fsGet_fsSet_self :
    ∀ (fs : FileSystem) (p : String) (e : FileEntry), fsGet (fsSet fs p e) p = some e := by
  intro fs p e
  induction fs with
  | nil => simp [fsSet, fsGet]
  | cons hd rest ih =>
    obtain ⟨p', e'⟩ := hd
    by_cases h : p' = p
    · simp [fsSet, fsGet, h]
    · simp [fsSet, fsGet, h, ih]

/-- C6: when a file exists at the target path it is compared byte-exactly against the
temporary file (size first, then content — equivalent to content equality); exactly when
the contents differ, the old file is copied to `<path>.bak`, the copy is
permission-hardened to owner-only, and the function returns `true`; when the contents
are byte-identical, or when no file exists at the target path, the filesystem is left
untouched (no `.bak` is created) and the function returns `false`. -/
theorem backup_config_file_if_different_spec :
    (∀ fs config_path new_file_path, fsGet fs config_path = none →
        backup_config_file_if_different fs config_path new_file_path = (fs, false)) ∧
      (∀ fs config_path new_file_path oldE newE,
        fsGet fs config_path = some oldE → fsGet fs new_file_path = some newE →
          (oldE.content = newE.content →
            backup_config_file_if_different fs config_path new_file_path = (fs, false)) ∧
          (¬(oldE.content = newE.content) →
            (backup_config_file_if_different fs config_path new_file_path).2 = true ∧
              fsGet (backup_config_file_if_different fs config_path new_file_path).1
                  (config_path ++ ".bak") =
                some { content := oldE.content, owner_only := true })) := by
  constructor
  · intro fs cp np h
    unfold backup_config_file_if_different
    rw [h]
  · intro fs cp np oldE newE hold hnew
    constructor
    · intro he
      unfold backup_config_file_if_different
      rw [hold]
      dsimp only [Option.map]
      rw [hnew]
      dsimp only [Option.map]
      rw [if_pos ((files_equal_some _ _).mpr he)]
    · intro hne
      have hfe : files_equal (some oldE.content) (some newE.content) = false := by
        cases hfe : files_equal (some oldE.content) (some newE.content) with
        | false => rfl
        | true => exact absurd ((files_equal_some _ _).mp hfe) hne
      unfold backup_config_file_if_different
      rw [hold]
      dsimp only [Option.map]
      rw [hnew]
      dsimp only [Option.map]
      rw [if_neg (by rw [hfe]; simp)]
      constructor
      · rfl
      · dsimp only
        unfold copy_file
        rw [hold]
        unfold make_file_private
        rw [fsGet_fsSet_self]
        rw [fsGet_fsSet_self]

/-- C6 witness: a filesystem holding a target config and a differing temporary file,
and one holding byte-identical files. -/
theorem backup_config_file_if_different_spec_witness :
    backup_config_file_if_different
        [("cfg", { content := "a", owner_only := false }),
         ("cfg.tmp", { content := "a", owner_only := false })] "cfg" "cfg.tmp" =
      ([("cfg", { content := "a", owner_only := false }),
        ("cfg.tmp", { content := "a", owner_only := false })], false) ∧
      (backup_config_file_if_different
          [("cfg", { content := "old", owner_only := false }),
           ("cfg.tmp", { content := "new", owner_only := false })] "cfg" "cfg.tmp").2 =
        true ∧
      fsGet
          (backup_config_file_if_different
              [("cfg", { content := "old", owner_only := false }),
               ("cfg.tmp", { content := "new", owner_only := false })] "cfg" "cfg.tmp").1
          ("cfg" ++ ".bak") =
        some { content := "old", owner_only := true } :=
  ⟨((backup_config_file_if_different_spec.2
        [("cfg", { content := "a", owner_only := false }),
         ("cfg.tmp", { content := "a", owner_only := false })] "cfg" "cfg.tmp"
        { content := "a", owner_only := false } { content := "a", owner_only := false }
        rfl rfl).1 rfl),
    (backup_config_file_if_different_spec.2
        [("cfg", { content := "old", owner_only := false }),
         ("cfg.tmp", { content := "new", owner_only := false })] "cfg" "cfg.tmp"
        { content := "old", owner_only := false } { content := "new", owner_only := false }
        rfl rfl).2 (by decide)⟩

/-- C7 counterexample: the password alphabet string literal of `generate_password`
holds 89 symbols, not the 92 the claim states. -/
theorem password_alphabet_size_not_92 :
    kPasswordAlphabet.toList.length = 89 ∧ ¬(kPasswordAlphabet.toList.length = 92) := by
  decide

/-- C7 (amended): `generate_password`, called with the fixed length 16
(`kMetadataServerPasswordLength`), returns a string of exactly 16 characters, each drawn
from the fixed 89-symbol printable alphabet; each draw is one output of
`uniform_int_distribution(0, strlen(alphabet)-1)` — an integer distribution over exactly
the alphabet size, not modulo-reduced — modelled by the `Fin`-valued random source. -/
theorem generate_password_spec :
    ∀ dist : Nat → Fin kPasswordAlphabet.toList.length,
      (generate_password kMetadataServerPasswordLength dist).length =
          kMetadataServerPasswordLength ∧
        ∀ c, c ∈ (generate_password kMetadataServerPasswordLength dist).toList →
          c ∈ kPasswordAlphabet.toList := by
  intro dist
  have hmk : ∀ l : List Char, (String.mk l).toList = l := fun l => rfl
  constructor
  · rfl
  · intro c hc
    rw [generate_password, hmk, List.mem_map] at hc
    obtain ⟨i, _, rfl⟩ := hc
    exact List.get_mem _ _ _

/-- C7 witness: the constant-zero random source. -/
theorem generate_password_spec_witness :
    (generate_password kMetadataServerPasswordLength
          (fun _ => (⟨0, by decide⟩ : Fin kPasswordAlphabet.toList.length))).length =
        kMetadataServerPasswordLength ∧
      '1' ∈ kPasswordAlphabet.toList :=
  ⟨(generate_password_spec (fun _ => ⟨0, by decide⟩)).1,
    (generate_password_spec (fun _ => ⟨0, by decide⟩)).2 '1' (by decide)⟩

/-! ### get_router_id_from_config_file theorems -/

/-- C9 counterexample: a configuration file with *two* `metadata_cache` sections,
neither matching the target cluster, does not return 0 under `--force` as the claim
demands — the multiple-sections check fires first and throws regardless of the force
flag. -/
theorem router_id_multiple_sections_force_fails :
    get_router_id_from_config_file "mysqlrouter.conf" true
        [[("metadata_cluster", "clusterA")], [("metadata_cluster", "clusterB")]]
        "clusterC" true =
      .error kMultipleSectionsError ∧
    ¬ (get_router_id_from_config_file "mysqlrouter.conf" true
        [[("metadata_cluster", "clusterA")], [("metadata_cluster", "clusterB")]]
        "clusterC" true = .ok 0) := by
  refine ⟨rfl, ?_⟩
  intro h
  exact Except.noConfusion
    (show (Except.error kMultipleSectionsError : Except String Nat) = .ok 0 from h)

/-- C9 (amended): for every existing configuration file with *at most one*
`metadata_cache` section, none of whose sections has a `metadata_cluster` equal to the
target cluster name — including a file with no `metadata_cache` section at all —
`get_router_id_from_config_file` without the force flag throws the "already configured
for a cluster named '…'" error suggesting `--force` (reporting the empty string when no
`metadata_cluster` option was found at all), and with the force flag returns 0; a file
with more than one `metadata_cache` section instead throws the multiple-sections error
regardless of the force flag. -/
theorem get_router_id_no_matching_cluster :
    (∀ config_file_path cluster_name,
        get_router_id_from_config_file config_file_path true [] cluster_name false =
            .error (alreadyConfiguredError "") ∧
          get_router_id_from_config_file config_file_path true [] cluster_name true = .ok 0) ∧
      (∀ config_file_path cluster_name s, sectionHas s "metadata_cluster" = true →
        ¬(sectionGet s "metadata_cluster" = cluster_name) →
          get_router_id_from_config_file config_file_path true [s] cluster_name false =
              .error (alreadyConfiguredError (sectionGet s "metadata_cluster")) ∧
            get_router_id_from_config_file config_file_path true [s] cluster_name true =
              .ok 0) ∧
      (∀ config_file_path cluster_name s, sectionHas s "metadata_cluster" = false →
        get_router_id_from_config_file config_file_path true [s] cluster_name false =
            .error (alreadyConfiguredError "") ∧
          get_router_id_from_config_file config_file_path true [s] cluster_name true =
            .ok 0) ∧
      (∀ config_file_path cluster_name force s1 s2 rest,
        get_router_id_from_config_file config_file_path true (s1 :: s2 :: rest)
            cluster_name force =
          .error kMultipleSectionsError) := by
  refine ⟨?_, ?_, ?_, ?_⟩
  · intro cfp cluster
    exact ⟨rfl, rfl⟩
  · intro cfp cluster s h1 h2
    unfold get_router_id_from_config_file
    rw [if_pos rfl, if_neg (by simp)]
    unfold scanSections
    rw [if_pos h1, if_neg h2]
    unfold scanSections
    exact ⟨rfl, rfl⟩
  · intro cfp cluster s h1
    unfold get_router_id_from_config_file
    rw [if_pos rfl, if_neg (by simp)]
    unfold scanSections
    rw [if_neg (by rw [h1]; simp)]
    unfold scanSections
    exact ⟨rfl, rfl⟩
  · intro cfp cluster force s1 s2 rest
    unfold get_router_id_from_config_file
    rw [if_pos rfl, if_pos (by simp [List.length_cons])]

/-- C9 witness: a single non-matching section, with and without force. -/
theorem get_router_id_no_matching_cluster_witness :
    get_router_id_from_config_file "mysqlrouter.conf" true
        [[("metadata_cluster", "clusterA")]] "clusterB" false =
      .error (alreadyConfiguredError (sectionGet [("metadata_cluster", "clusterA")]
        "metadata_cluster")) ∧
    get_router_id_from_config_file "mysqlrouter.conf" true
        [[("metadata_cluster", "clusterA")]] "clusterB" true = .ok 0 :=
  get_router_id_no_matching_cluster.2.1 "mysqlrouter.conf" "clusterB"
    [("metadata_cluster", "clusterA")] (by decide) (by decide)

/-! ### endpoint_option theorems -/

theorem string_eq_empty_of_length (s : String) (h : s.length = 0) : s = "" :=
  String.ext (List.length_eq_zero.mp h)

theorem append_ne_empty_of_left (a b : String) (h : ¬(a = "")) : ¬(a ++ b = "") := by
  intro hab
  apply h
  apply string_eq_empty_of_length
  have h2 := congrArg String.length hab
  rw [String.length_append] at h2
  have h3 : ("" : String).length = 0 := rfl
  rw [h3] at h2
  omega

/-- C10: for every endpoint with a positive port, the rendered routing-section text
starts with a `bind_address=` line using `0.0.0.0` when no bind-address option was
supplied (`options.bind_address` empty) and the supplied address otherwise, followed by
the `bind_port=` line and, when a socket is also set, the `socket=` line. -/
theorem endpoint_option_default_bind_address :
    ∀ (options : Options) (ep : Endpoint), ep.port > 0 →
      endpoint_option options ep =
        "bind_address=" ++
            (if options.bind_address = "" then "0.0.0.0" else options.bind_address) ++ "\n" ++
          "bind_port=" ++ toString ep.port ++
          (if ep.socket = "" then ""
            else "\n" ++ "socket=" ++ options.socketsdir ++ "/" ++ ep.socket) := by
  intro o ep hp
  unfold endpoint_option
  dsimp only
  rw [if_pos hp]
  have hne : ¬(("" ++ ("bind_address=" ++
      (if ¬(o.bind_address = "") then o.bind_address else "0.0.0.0") ++ "\n")) ++
      ("bind_port=" ++ toString ep.port) = "") :=
    append_ne_empty_of_left _ _ (by
      rw [String.empty_append]
      exact append_ne_empty_of_left _ _ (append_ne_empty_of_left _ _ (by decide)))
  by_cases hs : ep.socket = ""
  · rw [if_neg (not_not_intro hs), if_pos hs, String.append_empty]
    by_cases hb : o.bind_address = ""
    · rw [if_neg (not_not_intro hb), if_pos hb]
      simp only [String.empty_append, String.append_assoc]
    · rw [if_pos hb, if_neg hb]
      simp only [String.empty_append, String.append_assoc]
  · rw [if_pos hs, if_neg hs, if_pos hne]
    by_cases hb : o.bind_address = ""
    · rw [if_neg (not_not_intro hb), if_pos hb]
      simp only [String.empty_append, String.append_assoc]
    · rw [if_pos hb, if_neg hb]
      simp only [String.empty_append, String.append_assoc]

/-- C10 witness: port 7000, no bind-address supplied, with a socket. -/
theorem endpoint_option_default_bind_address_witness :
    endpoint_option { socketsdir := "/tmp" } { port := 7000, socket := "mysql.sock" } =
      "bind_address=0.0.0.0\nbind_port=7000\nsocket=/tmp/mysql.sock" := by
  rw [endpoint_option_default_bind_address { socketsdir := "/tmp" }
    { port := 7000, socket := "mysql.sock" } (by decide)]
  rfl
